import Mathlib

/-!
Verification of the route-resolution and transfer-orchestration core of the
wormhole-api-nextjs repository, shallowly embedded in Lean 4.

Embedded source files:
* `src/app/lib/route-helpers.ts` — `formatRoutes`, `getRouteName`,
  `getRouteDescription`, `isAutomaticRoute`, `formatETA`, `sortRoutesByFee`,
  `sortRoutesBySpeed`, `parseTimeString`.
* `src/app/lib/wormhole.ts` — `ViemWormholeSigner.signAndSend`,
  `getTransferQuote`, `initiateTransfer` (and the receipt tx-hash extraction).
* `src/app/lib/viem-ethers-adapter.ts` — `walletClientToEthersSigner`'s
  `sendTransaction` / `signTransaction`.

Modelling conventions: TypeScript strings are `String`, integers are `Nat`,
JavaScript numbers holding token amounts are modelled exactly as `ℚ`
(the claims checked here do not depend on binary floating-point artifacts),
`undefined`-able values are `Option`, thrown exceptions are `Except JsError`,
and `Array.prototype.sort` (stable by the ECMAScript specification) is
modelled by Mathlib's stable `List.insertionSort`.
-/

/-- A thrown JavaScript `Error` value: constructor/class name plus message.
A plain `new Error(msg)` has name `"Error"`; the repository's typed error
classes (`TransferFailedError`, …) set distinct `name` fields. -/
structure JsError where
  name : String
  message : String
deriving DecidableEq, Repr

/-- JS `a || b` for an optional string `a` (`undefined` and `""` are falsy). -/
def jsOrOpt (a b : Option String) : Option String :=
  match a with
  | some s => if s = "" then b else some s
  | none => b

/-- JS `a || d` for optional string `a` with a (truthy) default `d`. -/
def jsOrDefault (a : Option String) (d : String) : String :=
  match a with
  | some s => if s = "" then d else s
  | none => d

/-! ## `formatETA` (route-helpers.ts lines 74–84) -/

/-- `formatETA` from route-helpers.ts: successive floor divisions into
seconds, minutes, hours, days, then the largest nonzero unit is rendered.
Days and hours get an `s` suffix when the value exceeds 1; minutes and
seconds are always rendered as `min` / `sec`. -/
def formatETA (milliseconds : Nat) : String :=
  let seconds := milliseconds / 1000
  let minutes := seconds / 60
  let hours := minutes / 60
  let days := hours / 24
  if days > 0 then "~" ++ toString days ++ " day" ++ (if days > 1 then "s" else "")
  else if hours > 0 then "~" ++ toString hours ++ " hour" ++ (if hours > 1 then "s" else "")
  else if minutes > 0 then "~" ++ toString minutes ++ " min"
  else "~" ++ toString seconds ++ " sec"

/-- Direct single-division description of what `formatETA` renders: the
largest whole unit computed straight from the millisecond value. -/
def etaLargestUnit (ms : Nat) : String :=
  if ms / 86400000 > 0 then
    "~" ++ toString (ms / 86400000) ++ " day" ++ (if ms / 86400000 > 1 then "s" else "")
  else if ms / 3600000 > 0 then
    "~" ++ toString (ms / 3600000) ++ " hour" ++ (if ms / 3600000 > 1 then "s" else "")
  else if ms / 60000 > 0 then
    "~" ++ toString (ms / 60000) ++ " min"
  else
    "~" ++ toString (ms / 1000) ++ " sec"

theorem formatETA_eq_etaLargestUnit (ms : Nat) : formatETA ms = etaLargestUnit ms := by
  simp only [formatETA, etaLargestUnit, Nat.div_div_eq_div_mul]

example : formatETA 90000 = "~1 min" := by decide
example : formatETA 60000 = "~1 min" := by decide
example : formatETA 0 = "~0 sec" := by decide
example : formatETA 86400000 = "~1 day" := by decide
example : formatETA 172800000 = "~2 days" := by decide
example : formatETA 3600000 = "~1 hour" := by decide
example : formatETA 7200000 = "~2 hours" := by decide

/-! ## `parseTimeString` (route-helpers.ts lines 102–119)

The source runs `timeStr.match(/~(\d+)\s*(\w+)/)`. We model the regex engine
faithfully: scan left-to-right for the first start position where the pattern
matches, with the backtracking the pattern admits (greedy `\d+` gives one
digit back to `\w+` when no word character follows the optional spaces —
a digit is itself a word character). -/

/-- JS `\w` character class (ASCII letters, digits, underscore). -/
def isWordChar (c : Char) : Bool := c.isAlphanum || c = '_'

/-- JS `\s` character class, restricted to the ASCII whitespace the
formatted ETA strings can contain. -/
def isSpaceChar (c : Char) : Bool := c = ' ' || c = '\t' || c = '\n' || c = '\r'

/-- Value of a digit string, as `parseInt` computes it on a digit capture. -/
def digitsToNat (ds : List Char) : Nat :=
  ds.foldl (fun n c => n * 10 + (c.toNat - 48)) 0

/-- First match of `/~(\d+)\s*(\w+)/` in a character list: returns the two
capture groups (digits, unit word) of the leftmost match, if any. -/
def scanTimeMatch : List Char → Option (List Char × List Char)
  | [] => none
  | c :: rest =>
    if c = '~' then
      let ds := rest.takeWhile Char.isDigit
      if ds.isEmpty then scanTimeMatch rest
      else
        let r1 := rest.dropWhile Char.isDigit
        let ws := (r1.dropWhile isSpaceChar).takeWhile isWordChar
        if ws.isEmpty then
          -- `\w+` found nothing after the spaces; the engine backtracks
          -- `\d+` by one digit, which then itself satisfies `\w+`.
          if 2 ≤ ds.length then some (ds.dropLast, [ds.getLast?.getD '0'])
          else scanTimeMatch rest
        else some (ds, ws)
    else scanTimeMatch rest

/-- `parseTimeString` from route-helpers.ts: re-parse a formatted ETA string
into seconds; a failed regex match yields `Infinity`, modelled as `⊤`.
An unknown unit word falls back to multiplier 1 (`multipliers[unit] || 1`). -/
def parseTimeString (timeStr : String) : WithTop Nat :=
  match scanTimeMatch timeStr.toList with
  | none => ⊤
  | some (ds, ws) =>
    let num := digitsToNat ds
    let unit : String := String.mk ws
    let mult : Nat :=
      if unit = "sec" then 1
      else if unit = "min" then 60
      else if unit = "hour" then 3600
      else if unit = "hours" then 3600
      else if unit = "day" then 86400
      else if unit = "days" then 86400
      else 1
    ((num * mult : Nat) : WithTop Nat)

example : parseTimeString "~1 min" = ((60 : Nat) : WithTop Nat) := by decide
example : parseTimeString "~15 min" = ((900 : Nat) : WithTop Nat) := by decide
example : parseTimeString "~2 days" = ((172800 : Nat) : WithTop Nat) := by decide
example : parseTimeString "~1 hour" = ((3600 : Nat) : WithTop Nat) := by decide
example : parseTimeString "~0 sec" = ((0 : Nat) : WithTop Nat) := by decide
example : parseTimeString "soon" = ⊤ := by decide

/-! ## `RouteOption` (components/RouteSelector.tsx) and the sorters -/

/-- The `RouteOption` interface from RouteSelector.tsx. `feeAmount` is the
JS number used for sorting, modelled exactly as a rational. -/
structure RouteOption where
  type : String
  name : String
  description : String
  fee : String
  feeAmount : ℚ
  estimatedTime : String
  isAutomatic : Bool
deriving DecidableEq, Repr

/-- Model of `Array.prototype.sort` with comparator `key a - key b`:
the ECMAScript specification requires a stable ascending sort, which
Mathlib's `List.insertionSort` over `key a ≤ key b` realises. -/
def jsSortByKey {α β : Type} [LinearOrder β] (key : α → β) (l : List α) : List α :=
  l.insertionSort (fun a b => key a ≤ key b)

/-- `sortRoutesByFee` from route-helpers.ts: stable sort ascending on
`feeAmount`. -/
def sortRoutesByFee (routeList : List RouteOption) : List RouteOption :=
  jsSortByKey (fun o => o.feeAmount) routeList

/-- `sortRoutesBySpeed` from route-helpers.ts: stable sort ascending on
`parseTimeString` applied to the formatted ETA string (a string round-trip;
the comparator never sees a numeric ETA). -/
def sortRoutesBySpeed (routeList : List RouteOption) : List RouteOption :=
  jsSortByKey (fun o => parseTimeString o.estimatedTime) routeList

theorem jsSortByKey_perm {α β : Type} [LinearOrder β] (key : α → β) (l : List α) :
    List.Perm (jsSortByKey key l) l :=
  List.perm_insertionSort _ l

theorem jsSortByKey_sorted {α β : Type} [LinearOrder β] (key : α → β) (l : List α) :
    (jsSortByKey key l).Pairwise (fun a b => key a ≤ key b) := by
  haveI : IsTotal α (fun a b => key a ≤ key b) := ⟨fun a b => le_total _ _⟩
  haveI : IsTrans α (fun a b => key a ≤ key b) := ⟨fun _ _ _ h h' => le_trans h h'⟩
  exact List.sorted_insertionSort _ l

/-- Stability of the modelled JS sort: elements sharing one key value keep
their original relative order (their filtered subsequence is unchanged). -/
theorem jsSortByKey_filter_eq {α β : Type} [LinearOrder β] (key : α → β)
    (l : List α) (k : β) :
    (jsSortByKey key l).filter (fun a => decide (key a = k)) =
      l.filter (fun a => decide (key a = k)) := by
  have hpair : (l.filter (fun a => decide (key a = k))).Pairwise
      (fun a b => key a ≤ key b) := by
    refine List.pairwise_of_forall_mem_list ?_
    intro a ha b hb
    rw [List.mem_filter, decide_eq_true_eq] at ha hb
    rw [ha.2, hb.2]
  have hsub : List.Sublist (l.filter (fun a => decide (key a = k)))
      (jsSortByKey key l) :=
    List.sublist_insertionSort hpair (List.filter_sublist l)
  have hself : (l.filter (fun a => decide (key a = k))).filter
      (fun a => decide (key a = k)) = l.filter (fun a => decide (key a = k)) := by
    refine List.filter_eq_self.mpr ?_
    intro a ha
    exact (List.mem_filter.mp ha).2
  have hsub2 : List.Sublist (l.filter (fun a => decide (key a = k)))
      ((jsSortByKey key l).filter (fun a => decide (key a = k))) := by
    have h := hsub.filter (fun a => decide (key a = k))
    rwa [hself] at h
  have hlen : ((jsSortByKey key l).filter (fun a => decide (key a = k))).length =
      (l.filter (fun a => decide (key a = k))).length :=
    ((jsSortByKey_perm key l).filter (fun a => decide (key a = k))).length_eq
  exact (hsub2.eq_of_length hlen.symm).symm

/-! ## `formatRoutes` (route-helpers.ts lines 6–69) -/

/-- Contiguous-substring test on character lists, modelling
`String.prototype.includes`. -/
def containsSub (pat : List Char) : List Char → Bool
  | [] => pat.isEmpty
  | c :: rest => pat.isPrefixOf (c :: rest) || containsSub pat rest

/-- `getRouteName` from route-helpers.ts: static lookup with the raw route
type as fallback (`names[routeType] || routeType`). -/
def getRouteName (routeType : String) : String :=
  if routeType = "AutomaticCCTPRoute" then "Fast CCTP (Automatic)"
  else if routeType = "CCTPRoute" then "Fast CCTP (Manual)"
  else if routeType = "AutomaticTokenBridgeRoute" then "Token Bridge (Automatic)"
  else if routeType = "TokenBridgeRoute" then "Token Bridge (Manual)"
  else routeType

/-- `getRouteDescription` from route-helpers.ts. -/
def getRouteDescription (routeType : String) : String :=
  if routeType = "AutomaticCCTPRoute" then
    "Fastest delivery with automatic relayer - includes relay fee"
  else if routeType = "CCTPRoute" then
    "Fast delivery - requires manual claim on destination chain"
  else if routeType = "AutomaticTokenBridgeRoute" then
    "Automatic delivery via Token Bridge - may take longer"
  else if routeType = "TokenBridgeRoute" then
    "Cheapest option - requires manual claim and takes ~12+ days"
  else "Standard bridge route"

/-- `isAutomaticRoute` from route-helpers.ts:
`routeType.includes('Automatic')`. -/
def isAutomaticRoute (routeType : String) : Bool :=
  containsSub "Automatic".toList routeType.toList

/-- `relayFee.amount` in a quote: an integer amount string plus a decimal
count (`parseFloat(relayFee.amount.amount)` recovers the integer value). -/
structure FeeAmount where
  amount : Nat
  decimals : Nat
deriving DecidableEq, Repr

/-- `relayFee.token`: the symbol may be absent
(`relayFee.token.symbol || 'tokens'`). -/
structure FeeToken where
  symbol : Option String
deriving DecidableEq, Repr

/-- A quote's optional relay fee. -/
structure RelayFee where
  amount : FeeAmount
  token : FeeToken
deriving DecidableEq, Repr

/-- The fields of a raw SDK quote that `formatRoutes` reads: `quote?.relayFee`
and `quote?.eta` (either may be absent). -/
structure RawQuote where
  relayFee : Option RelayFee
  eta : Option Nat
deriving DecidableEq, Repr

/-- A raw SDK route as `formatRoutes` sees it: only `route.constructor.name`
is consulted. -/
structure RawRoute where
  ctorName : String
deriving DecidableEq, Repr

/-- `Number.prototype.toFixed(6)` on a (non-negative) exact rational: round
to the nearest multiple of `10⁻⁶` (ties away from zero) and render with six
fractional digits. -/
def toFixed6 (q : ℚ) : String :=
  let n : ℤ := ⌊q * 1000000 + 1 / 2⌋
  let frac : Nat := (n % 1000000).toNat
  let fracStr := toString frac
  let pad := String.mk (List.replicate (6 - fracStr.length) '0')
  toString (n / 1000000) ++ "." ++ pad ++ fracStr

/-- The numeric fee magnitude `formatRoutes` computes when a relay fee is
present: `parseFloat(relayFee.amount.amount) / Math.pow(10, decimals)`. -/
def relayFeeAmount (rf : RelayFee) : ℚ :=
  (rf.amount.amount : ℚ) / 10 ^ rf.amount.decimals

/-- The per-index body of `formatRoutes`: derive one `RouteOption` from a raw
route and the (possibly missing) quote at the same index. -/
def formatRouteOption (route : RawRoute) (quote : Option RawQuote) : RouteOption :=
  let relayFee := quote.bind (fun q => q.relayFee)
  let feeAmount : ℚ := match relayFee with
    | some rf => relayFeeAmount rf
    | none => 0
  let feeDisplay : String := match relayFee with
    | some rf => toFixed6 (relayFeeAmount rf) ++ " " ++ jsOrDefault rf.token.symbol "tokens"
    | none => "Free"
  let eta : Nat := (quote.bind (fun q => q.eta)).getD 0
  { type := route.ctorName
    name := getRouteName route.ctorName
    description := getRouteDescription route.ctorName
    fee := feeDisplay
    feeAmount := feeAmount
    estimatedTime := formatETA eta
    isAutomatic := isAutomaticRoute route.ctorName }

/-- JS indexing `quotes[index]` into a possibly short array whose entries may
themselves be `undefined`. -/
def jsIndex (quotes : List (Option RawQuote)) (i : Nat) : Option RawQuote :=
  (quotes.get? i).bind id

/-- Recursion for `allRoutes.map((route, index) => ...)` carrying the index. -/
def formatRoutesFrom (quotes : List (Option RawQuote)) :
    Nat → List RawRoute → List RouteOption
  | _, [] => []
  | i, r :: rs => formatRouteOption r (jsIndex quotes i) :: formatRoutesFrom quotes (i + 1) rs

/-- `formatRoutes` from route-helpers.ts. -/
def formatRoutes (allRoutes : List RawRoute) (quotes : List (Option RawQuote)) :
    List RouteOption :=
  formatRoutesFrom quotes 0 allRoutes

theorem formatRoutesFrom_length (quotes : List (Option RawQuote)) :
    ∀ (i : Nat) (rs : List RawRoute), (formatRoutesFrom quotes i rs).length = rs.length := by
  intro i rs
  induction rs generalizing i with
  | nil => rfl
  | cons r rs ih => simp [formatRoutesFrom, ih]

theorem formatRoutesFrom_get? (quotes : List (Option RawQuote)) :
    ∀ (i j : Nat) (rs : List RawRoute),
      (formatRoutesFrom quotes i rs).get? j =
        (rs.get? j).map (fun r => formatRouteOption r (jsIndex quotes (i + j))) := by
  intro i j rs
  induction rs generalizing i j with
  | nil => simp [formatRoutesFrom]
  | cons r rs ih =>
    cases j with
    | zero => simp [formatRoutesFrom]
    | succ j =>
      have h := ih (i + 1) j
      simp only [formatRoutesFrom, List.get?_cons_succ, h]
      have harith : i + 1 + j = i + (j + 1) := by omega
      rw [harith]

example :
    formatRoutes [⟨"CCTPRoute"⟩] [] =
      [{ type := "CCTPRoute", name := "Fast CCTP (Manual)",
         description := "Fast delivery - requires manual claim on destination chain",
         fee := "Free", feeAmount := 0, estimatedTime := "~0 sec",
         isAutomatic := false }] := by decide

example : toFixed6 (1 / 2) = "0.500000" := by
  simp only [toFixed6]
  rw [show ⌊(1 / 2 : ℚ) * 1000000 + 1 / 2⌋ = 500000 by norm_num]
  decide

example : isAutomaticRoute "AutomaticCCTPRoute" = true := by decide
example : isAutomaticRoute "CCTPRoute" = false := by decide

/-! ## Receipt tx-hash extraction (wormhole.ts line 314, Bridge.tsx line 232)

`const txHash = receipt?.originTxs?.[0]?.txid || receipt?.txid || receipt?.hash;`
-/

/-- One entry of a receipt's `originTxs` list. -/
structure OriginTx where
  txid : String
deriving DecidableEq, Repr

/-- The receipt fields the extraction expression reads. -/
structure RouteReceipt where
  originTxs : Option (List OriginTx)
  txid : Option String
  hash : Option String
deriving DecidableEq, Repr

/-- The tx-hash extraction performed after `route.initiate` resolves:
`receipt?.originTxs?.[0]?.txid || receipt?.txid || receipt?.hash`. -/
def extractTxHash (receipt : RouteReceipt) : Option String :=
  jsOrOpt (jsOrOpt ((receipt.originTxs.bind List.head?).map OriginTx.txid) receipt.txid)
    receipt.hash

example :
    extractTxHash ⟨some [⟨"0xaaa"⟩, ⟨"0xbbb"⟩], none, none⟩ = some "0xaaa" := by decide
example : extractTxHash ⟨none, some "0xccc", none⟩ = some "0xccc" := by decide
example : extractTxHash ⟨some [], none, some "0xddd"⟩ = some "0xddd" := by decide

/-! ## `ViemWormholeSigner.signAndSend` (wormhole.ts lines 26–39)

The adapter loops over the transactions in order, awaiting
`ethersSigner.sendTransaction` (which itself waits for the transaction
receipt, viem-ethers-adapter.ts lines 80–116) for each before touching the
next, and collects the returned hashes. A rejection throws out of the loop.
We model the wallet's send-and-broadcast capability as a function from the
transaction payload to `Except JsError hash` and additionally record the
submission log (which payloads were handed to the wallet, in order). -/

/-- One entry of the `txns` array handed to `signAndSend`: an unsigned
transaction payload plus its human-readable description. -/
structure UnsignedTx (τ : Type) where
  transaction : τ
  description : String

/-- `signAndSend`, instrumented with the submission log: returns the list of
transaction payloads actually handed to the wallet (in submission order) and
either the collected hashes or the first propagated failure. -/
def signAndSendRun {τ : Type} (send : τ → Except JsError String) :
    List (UnsignedTx τ) → List τ × Except JsError (List String)
  | [] => ([], .ok [])
  | t :: ts =>
    match send t.transaction with
    | .error e => ([t.transaction], .error e)
    | .ok h =>
      let rest := signAndSendRun send ts
      (t.transaction :: rest.1,
        match rest.2 with
        | .ok hs => .ok (h :: hs)
        | .error e => .error e)

/-! ## `walletClientToEthersSigner.signTransaction`
(viem-ethers-adapter.ts lines 118–123) -/

/-- The adapter's `signTransaction`: unconditionally throws; no detached
signature is ever produced. -/
def adapterSignTransaction {τ : Type} (_transaction : τ) : Except JsError String :=
  .error ⟨"Error", "signTransaction not supported - the SDK should use sendTransaction instead"⟩

/-! ## `initiateTransfer` (wormhole.ts lines 235–329)

The executor calls `route.validate`, aborts on an invalid result with
`new Error(validated.error || 'Transfer validation failed')`, then calls
`route.quote`, aborts on an unsuccessful result with
`new Error(quote.error || 'Failed to get quote')`, and only then calls
`route.initiate`. Exceptions from the three route operations propagate
(the source's catch blocks log and rethrow). We record the invocation
trace to express which route operations were reached. -/

/-- The route operations `initiateTransfer` can invoke, in source order. -/
inductive ExecStep where
  | validateStep
  | quoteStep
  | initiateStep
deriving DecidableEq, Repr

/-- A `route.validate` result: `{ valid, error?, params }`. -/
structure ValidationResult (π : Type) where
  valid : Bool
  error : Option String
  params : π

/-- A `route.quote` result: `{ success, error?, ... }` with the payload the
later `initiate` call consumes. -/
structure QuoteResult (κ : Type) where
  success : Bool
  error : Option String
  payload : κ

/-- The chosen route's three operations, with the transfer request, signer
and receiver address fixed by the enclosing call. Each operation may throw. -/
structure RouteOps (π κ ρ : Type) where
  validate : Except JsError (ValidationResult π)
  quote : π → Except JsError (QuoteResult κ)
  initiate : κ → Except JsError ρ

/-- `initiateTransfer`, instrumented with the trace of route operations it
invoked, in order. -/
def initiateTransferRun {π κ ρ : Type} (route : RouteOps π κ ρ) :
    List ExecStep × Except JsError ρ :=
  match route.validate with
  | .error e => ([.validateStep], .error e)
  | .ok validated =>
    if validated.valid = false then
      ([.validateStep], .error ⟨"Error", jsOrDefault validated.error "Transfer validation failed"⟩)
    else
      match route.quote validated.params with
      | .error e => ([.validateStep, .quoteStep], .error e)
      | .ok quote =>
        if quote.success = false then
          ([.validateStep, .quoteStep],
            .error ⟨"Error", jsOrDefault quote.error "Failed to get quote"⟩)
        else
          match route.initiate quote.payload with
          | .error e => ([.validateStep, .quoteStep, .initiateStep], .error e)
          | .ok receipt => ([.validateStep, .quoteStep, .initiateStep], .ok receipt)

/-! ## `getTransferQuote` (wormhole.ts lines 81–230)

After building the token id, the function queries
`resolver.supportedDestinationTokens`; an empty (or missing) result throws
`new Error('No supported destination tokens found')` before the transfer
request is created and before `resolver.findRoutes` runs. Only `findRoutes`
enumerates routes; `getTransferQuote` never calls any route's `validate` or
`quote`. The trace records which resolver/route operations were invoked. -/

/-- The operations traced while resolving routes. `routeValidate` and
`routeQuote` are included so that their absence from every trace is
expressible. -/
inductive ResolveStep where
  | destTokensStep
  | findRoutesStep
  | routeValidate
  | routeQuote
deriving DecidableEq, Repr

/-- The resolver operations `getTransferQuote` uses: the destination-token
query and the route enumeration (keyed by the first destination token, which
is what the source passes into `RouteTransferRequest.create`). -/
structure ResolverOps (τ ρ : Type) where
  supportedDestinationTokens : Except JsError (List τ)
  findRoutes : τ → Except JsError (List ρ)

/-- `getTransferQuote`, instrumented with its invocation trace; on success
returns the best route (`foundRoutes[0]`) together with all found routes. -/
def getTransferQuoteRun {τ ρ : Type} (resolver : ResolverOps τ ρ) :
    List ResolveStep × Except JsError (ρ × List ρ) :=
  match resolver.supportedDestinationTokens with
  | .error e => ([.destTokensStep], .error e)
  | .ok destTokens =>
    match destTokens with
    | [] => ([.destTokensStep], .error ⟨"Error", "No supported destination tokens found"⟩)
    | t0 :: _ =>
      match resolver.findRoutes t0 with
      | .error e => ([.destTokensStep, .findRoutesStep], .error e)
      | .ok foundRoutes =>
        match foundRoutes with
        | [] => ([.destTokensStep, .findRoutesStep],
            .error ⟨"Error", "No routes found for this transfer"⟩)
        | r0 :: _ => ([.destTokensStep, .findRoutesStep], .ok (r0, foundRoutes))

/-! # Claims -/

/-- C1, counterexample: on a receipt whose ordered origin-chain transaction
list holds an approval followed by the transfer, the extraction yields the
FIRST entry (the approval), not the last entry as the claim states. -/
theorem c1_counterexample :
    extractTxHash ⟨some [⟨"0xapproval"⟩, ⟨"0xtransfer"⟩], none, none⟩ ≠ some "0xtransfer" ∧
    extractTxHash ⟨some [⟨"0xapproval"⟩, ⟨"0xtransfer"⟩], none, none⟩ = some "0xapproval" := by
  decide

/-- C1 (amended): the representative transaction identifier extracted from
the route's receipt is the FIRST entry of the receipt's ordered origin-chain
transaction list (when that entry's id is non-empty); only when no such list
is present (absent or empty) does the extraction fall back to the single
`txid` / `hash` identifier fields. -/
theorem c1_extract_first_origin_tx :
    (∀ (receipt : RouteReceipt) (t : OriginTx) (ts : List OriginTx),
      receipt.originTxs = some (t :: ts) → t.txid ≠ "" →
        extractTxHash receipt = some t.txid) ∧
    (∀ receipt : RouteReceipt,
      receipt.originTxs = none ∨ receipt.originTxs = some [] →
        extractTxHash receipt = jsOrOpt receipt.txid receipt.hash) := by
  constructor
  · intro receipt t ts hlist htxid
    simp [extractTxHash, hlist, jsOrOpt, htxid]
  · intro receipt hnone
    rcases hnone with h | h <;> simp [extractTxHash, h, jsOrOpt]

/-- C1, witness for the amended theorem at a two-transaction receipt. -/
theorem c1_extract_first_origin_tx_witness :
    extractTxHash ⟨some [⟨"0xapproval"⟩, ⟨"0xtransfer"⟩], none, none⟩ = some "0xapproval" :=
  c1_extract_first_origin_tx.1 ⟨some [⟨"0xapproval"⟩, ⟨"0xtransfer"⟩], none, none⟩
    ⟨"0xapproval"⟩ [⟨"0xtransfer"⟩] rfl (by decide)

/-- The concrete wallet send function used to witness C2: it rejects the
payload `0` and broadcasts every other payload. -/
def walletSendW : Nat → Except JsError String := fun n =>
  if n = 0 then .error ⟨"Error", "User rejected the request"⟩ else .ok "0xbroadcast"

/-- C2: within one `signAndSend` call the transactions are submitted
sequentially in input order; a failure at any position stops the sequence
(the submission log is exactly the inputs up to and including the failing
one, and the failure propagates), and on success exactly one transaction id
is returned per input transaction, positionally aligned. -/
theorem c2_signAndSend_sequential :
    ∀ (τ : Type) (send : τ → Except JsError String) (txns : List (UnsignedTx τ)),
      (∃ k, (signAndSendRun send txns).1 = (txns.take k).map (fun t => t.transaction)) ∧
      (∀ hs, (signAndSendRun send txns).2 = Except.ok hs →
        (signAndSendRun send txns).1 = txns.map (fun t => t.transaction) ∧
        List.Forall₂ (fun t h => send t.transaction = Except.ok h) txns hs) ∧
      (∀ (pre : List (UnsignedTx τ)) (t : UnsignedTx τ) (post : List (UnsignedTx τ))
          (e : JsError),
        txns = pre ++ t :: post →
        (∀ u ∈ pre, ∃ h, send u.transaction = Except.ok h) →
        send t.transaction = Except.error e →
        (signAndSendRun send txns).1 = (pre ++ [t]).map (fun t => t.transaction) ∧
        (signAndSendRun send txns).2 = Except.error e) := by
  intro τ send txns
  refine ⟨?_, ?_, ?_⟩
  · induction txns with
    | nil => exact ⟨0, rfl⟩
    | cons t ts ih =>
      cases hsend : send t.transaction with
      | error e =>
        exact ⟨1, by simp [signAndSendRun, hsend]⟩
      | ok h =>
        obtain ⟨k, hk⟩ := ih
        exact ⟨k + 1, by simp [signAndSendRun, hsend, hk]⟩
  · induction txns with
    | nil =>
      intro hs hok
      simp only [signAndSendRun] at hok
      cases hok
      exact ⟨rfl, List.Forall₂.nil⟩
    | cons t ts ih =>
      intro hs hok
      cases hsend : send t.transaction with
      | error e => simp [signAndSendRun, hsend] at hok
      | ok h =>
        simp only [signAndSendRun, hsend] at hok
        cases hrest : (signAndSendRun send ts).2 with
        | error e => rw [hrest] at hok; cases hok
        | ok hs' =>
          rw [hrest] at hok
          cases hok
          obtain ⟨hlog, hall⟩ := ih hs' hrest
          exact ⟨by simp [signAndSendRun, hsend, hlog], List.Forall₂.cons hsend hall⟩
  · intro pre t post e
    induction pre generalizing txns with
    | nil =>
      intro heq _ hfail
      subst heq
      simp [signAndSendRun, hfail]
    | cons u pre' ih =>
      intro heq hok hfail
      subst heq
      obtain ⟨h, hu⟩ := hok u (by simp)
      have hrest := ih (pre' ++ t :: post) rfl
        (fun v hv => hok v (List.mem_cons_of_mem u hv)) hfail
      simp only [signAndSendRun, hu]
      exact ⟨by simp [hrest.1], by simp [hrest.2]⟩

/-- C2, witness: the wallet declines the first of two transactions, so only
that one was submitted and the whole call fails. -/
theorem c2_signAndSend_sequential_witness :
    (signAndSendRun walletSendW [⟨0, "approve"⟩, ⟨1, "transfer"⟩]).1 = [0] ∧
    (signAndSendRun walletSendW [⟨0, "approve"⟩, ⟨1, "transfer"⟩]).2 =
      Except.error ⟨"Error", "User rejected the request"⟩ :=
  (c2_signAndSend_sequential Nat walletSendW [⟨0, "approve"⟩, ⟨1, "transfer"⟩]).2.2
    [] ⟨0, "approve"⟩ [⟨1, "transfer"⟩] ⟨"Error", "User rejected the request"⟩
    rfl (by intro u hu; cases hu) rfl

/-- C3, counterexample: 90000 ms renders as `"~1 min"` — the largest whole
unit, but with the fixed abbreviation `min` and a `~` prefix, not the
claim's singular spelled-out `"1 minute"` (and likewise 60000 ms). -/
theorem c3_counterexample :
    formatETA 90000 ≠ "1 minute" ∧ formatETA 90000 = "~1 min" ∧
    formatETA 60000 ≠ "1 minute" ∧ formatETA 60000 = "~1 min" := by
  decide

/-- C3 (amended): for every non-negative millisecond ETA the formatted
string shows only the largest whole unit (days, then hours, then minutes,
then seconds) with a `~` prefix; days and hours use singular phrasing at
value 1 and plural at 2 or more, while minutes and seconds always use the
fixed abbreviations `min` / `sec`; in particular 90000 ms and 60000 ms both
format as `"~1 min"` (not as seconds). -/
theorem c3_formatETA_largest_unit :
    (∀ ms : Nat, formatETA ms = etaLargestUnit ms) ∧
    formatETA 90000 = "~1 min" ∧ formatETA 60000 = "~1 min" ∧
    formatETA 86400000 = "~1 day" ∧ formatETA 172800000 = "~2 days" ∧
    formatETA 3600000 = "~1 hour" ∧ formatETA 7200000 = "~2 hours" :=
  ⟨formatETA_eq_etaLargestUnit, by decide, by decide, by decide, by decide,
    by decide, by decide⟩

/-- C4: `sortRoutesBySpeed` sorts ascending by the time value re-parsed from
each option's formatted ETA string (`parseTimeString`, the only quantity the
comparator reads — no numeric ETA is consulted): the output is a permutation
of the input, ordered by the re-parsed key; options whose ETA strings are
equal necessarily carry equal keys, and options sharing a key value keep
their original relative order (stable sort). -/
theorem c4_bySpeed_string_roundtrip :
    ∀ routeList : List RouteOption,
      List.Perm (sortRoutesBySpeed routeList) routeList ∧
      (sortRoutesBySpeed routeList).Pairwise
        (fun a b => parseTimeString a.estimatedTime ≤ parseTimeString b.estimatedTime) ∧
      (∀ a b : RouteOption, a.estimatedTime = b.estimatedTime →
        parseTimeString a.estimatedTime = parseTimeString b.estimatedTime) ∧
      (∀ k : WithTop Nat,
        (sortRoutesBySpeed routeList).filter
            (fun o => decide (parseTimeString o.estimatedTime = k)) =
          routeList.filter (fun o => decide (parseTimeString o.estimatedTime = k))) := by
  intro routeList
  refine ⟨jsSortByKey_perm _ _, jsSortByKey_sorted _ _, ?_, fun k => jsSortByKey_filter_eq _ _ k⟩
  intro a b hab
  rw [hab]

/-- C4, witness: 61000 ms and 89000 ms are different numeric ETAs that both
format to `"~1 min"`, so the corresponding options carry equal sort keys. -/
theorem c4_bySpeed_string_roundtrip_witness :
    parseTimeString (RouteOption.mk "CCTPRoute" "a" "" "Free" 0 (formatETA 61000)
        false).estimatedTime =
      parseTimeString (RouteOption.mk "CCTPRoute" "b" "" "Free" 0 (formatETA 89000)
        false).estimatedTime :=
  (c4_bySpeed_string_roundtrip []).2.2.1
    (RouteOption.mk "CCTPRoute" "a" "" "Free" 0 (formatETA 61000) false)
    (RouteOption.mk "CCTPRoute" "b" "" "Free" 0 (formatETA 89000) false) (by decide)

/-- C5: the signer adapter's `signTransaction` throws on every input and
never produces a detached signature. -/
theorem c5_signTransaction_never_signs :
    ∀ (τ : Type) (transaction : τ),
      adapterSignTransaction transaction =
        Except.error ⟨"Error",
          "signTransaction not supported - the SDK should use sendTransaction instead"⟩ ∧
      (adapterSignTransaction transaction).isOk = false :=
  fun _ _ => ⟨rfl, rfl⟩

/-- C6, counterexample: on a route whose validation comes back invalid with
reason `"bad amount"`, `initiateTransfer` fails with a plain `Error` (name
`"Error"`), not with the typed `TransferFailedError` the claim names (and
the quote path likewise throws a plain `Error`, not `QuoteFailedError`). -/
theorem c6_counterexample :
    (initiateTransferRun (⟨Except.ok ⟨false, some "bad amount", ()⟩,
        fun _ => Except.ok ⟨true, none, ()⟩,
        fun _ => Except.ok ()⟩ : RouteOps Unit Unit Unit)).2 =
      Except.error ⟨"Error", "bad amount"⟩ ∧
    (JsError.mk "Error" "bad amount").name ≠ "TransferFailedError" ∧
    (JsError.mk "Error" "Failed to get quote").name ≠ "QuoteFailedError" :=
  ⟨rfl, by decide, by decide⟩

/-- C6 (amended): `initiateTransfer` invokes `route.validate`, then
`route.quote`, then `route.initiate`, in that order (its invocation trace is
always a prefix of that sequence and always starts with validation); when
validation returns an invalid result it fails with a plain `Error` carrying
the validation reason (default `"Transfer validation failed"`), and when the
quote is unsuccessful it fails with a plain `Error` carrying the quote error
(default `"Failed to get quote"`) — in both failure cases `route.initiate`
is never invoked. -/
theorem c6_validate_quote_before_initiate :
    ∀ (π κ ρ : Type) (route : RouteOps π κ ρ),
      (initiateTransferRun route).1 =
        [ExecStep.validateStep, ExecStep.quoteStep, ExecStep.initiateStep].take
          (initiateTransferRun route).1.length ∧
      ExecStep.validateStep ∈ (initiateTransferRun route).1 ∧
      (∀ v : ValidationResult π, route.validate = Except.ok v → v.valid = false →
        (initiateTransferRun route).2 =
          Except.error ⟨"Error", jsOrDefault v.error "Transfer validation failed"⟩ ∧
        ExecStep.initiateStep ∉ (initiateTransferRun route).1 ∧
        ExecStep.quoteStep ∉ (initiateTransferRun route).1) ∧
      (∀ (v : ValidationResult π) (q : QuoteResult κ),
        route.validate = Except.ok v → v.valid = true →
        route.quote v.params = Except.ok q → q.success = false →
        (initiateTransferRun route).2 =
          Except.error ⟨"Error", jsOrDefault q.error "Failed to get quote"⟩ ∧
        ExecStep.initiateStep ∉ (initiateTransferRun route).1) := by
  intro π κ ρ route
  refine ⟨?_, ?_, ?_, ?_⟩
  · unfold initiateTransferRun
    cases route.validate with
    | error e => rfl
    | ok v =>
      by_cases hv : v.valid = false
      · simp [hv]
      · simp only [hv, if_false]
        cases route.quote v.params with
        | error e => rfl
        | ok q =>
          by_cases hq : q.success = false
          · simp [hq]
          · simp only [hq, if_false]
            cases route.initiate q.payload with
            | error e => rfl
            | ok receipt => rfl
  · unfold initiateTransferRun
    cases route.validate with
    | error e => simp
    | ok v =>
      by_cases hv : v.valid = false
      · simp [hv]
      · simp only [hv, if_false]
        cases route.quote v.params with
        | error e => simp
        | ok q =>
          by_cases hq : q.success = false
          · simp [hq]
          · simp only [hq, if_false]
            cases route.initiate q.payload with
            | error e => simp
            | ok receipt => simp
  · intro v hval hinvalid
    unfold initiateTransferRun
    rw [hval]
    simp [hinvalid]
  · intro v q hval hvalid hquote hfail
    unfold initiateTransferRun
    rw [hval]
    simp only [hvalid, if_neg (by simp : ¬ (true = false))]
    rw [hquote]
    simp [hfail]

/-- C6, witness for the amended theorem: a route with an invalid validation
result never reaches `route.quote` or `route.initiate`. -/
theorem c6_validate_quote_before_initiate_witness :
    (initiateTransferRun (⟨Except.ok ⟨false, some "bad amount", ()⟩,
        fun _ => Except.ok ⟨true, none, ()⟩,
        fun _ => Except.ok ()⟩ : RouteOps Unit Unit Unit)).2 =
      Except.error ⟨"Error", jsOrDefault (some "bad amount") "Transfer validation failed"⟩ ∧
    ExecStep.initiateStep ∉ (initiateTransferRun (⟨Except.ok ⟨false, some "bad amount", ()⟩,
        fun _ => Except.ok ⟨true, none, ()⟩,
        fun _ => Except.ok ()⟩ : RouteOps Unit Unit Unit)).1 ∧
    ExecStep.quoteStep ∉ (initiateTransferRun (⟨Except.ok ⟨false, some "bad amount", ()⟩,
        fun _ => Except.ok ⟨true, none, ()⟩,
        fun _ => Except.ok ()⟩ : RouteOps Unit Unit Unit)).1 :=
  (c6_validate_quote_before_initiate Unit Unit Unit
      ⟨Except.ok ⟨false, some "bad amount", ()⟩, fun _ => Except.ok ⟨true, none, ()⟩,
        fun _ => Except.ok ()⟩).2.2.1
    ⟨false, some "bad amount", ()⟩ rfl rfl

/-- C7: `sortRoutesByFee` sorts ascending by the numeric fee magnitude with
ties keeping their original relative order (stable sort); in particular any
three options with fee magnitudes `[0, 5, 2]` in input order come out in
input positions `[0, 2, 1]`, whatever their other fields. -/
theorem c7_byFee_stable_ascending :
    (∀ routeList : List RouteOption,
      List.Perm (sortRoutesByFee routeList) routeList ∧
      (sortRoutesByFee routeList).Pairwise (fun a b => a.feeAmount ≤ b.feeAmount) ∧
      (∀ k : ℚ,
        (sortRoutesByFee routeList).filter (fun o => decide (o.feeAmount = k)) =
          routeList.filter (fun o => decide (o.feeAmount = k)))) ∧
    (∀ o0 o1 o2 : RouteOption,
      o0.feeAmount = 0 → o1.feeAmount = 5 → o2.feeAmount = 2 →
      sortRoutesByFee [o0, o1, o2] = [o0, o2, o1]) := by
  constructor
  · intro routeList
    exact ⟨jsSortByKey_perm _ _, jsSortByKey_sorted _ _,
      fun k => jsSortByKey_filter_eq _ _ k⟩
  · intro o0 o1 o2 h0 h1 h2
    simp only [sortRoutesByFee, jsSortByKey, List.insertionSort, List.orderedInsert,
      h0, h1, h2]
    norm_num

/-- C7, witness at three concrete options with fees 0, 5 and 2. -/
theorem c7_byFee_stable_ascending_witness :
    sortRoutesByFee
        [RouteOption.mk "A" "" "" "Free" 0 "~1 min" false,
         RouteOption.mk "B" "" "" "5.000000 USDC" 5 "~1 min" true,
         RouteOption.mk "C" "" "" "2.000000 USDC" 2 "~1 min" true] =
      [RouteOption.mk "A" "" "" "Free" 0 "~1 min" false,
       RouteOption.mk "C" "" "" "2.000000 USDC" 2 "~1 min" true,
       RouteOption.mk "B" "" "" "5.000000 USDC" 5 "~1 min" true] :=
  c7_byFee_stable_ascending.2
    (RouteOption.mk "A" "" "" "Free" 0 "~1 min" false)
    (RouteOption.mk "B" "" "" "5.000000 USDC" 5 "~1 min" true)
    (RouteOption.mk "C" "" "" "2.000000 USDC" 2 "~1 min" true) rfl rfl rfl

/-- C8, counterexample: with zero supported destination tokens,
`getTransferQuote` throws a plain `Error` (name `"Error"`, message
`"No supported destination tokens found"`); the repository defines no
`NoDestinationTokenError` class and none is thrown. -/
theorem c8_counterexample :
    (getTransferQuoteRun (⟨Except.ok ([] : List Unit),
        fun _ => Except.ok ([] : List Unit)⟩ : ResolverOps Unit Unit)).2 =
      Except.error ⟨"Error", "No supported destination tokens found"⟩ ∧
    (JsError.mk "Error" "No supported destination tokens found").name ≠
      "NoDestinationTokenError" :=
  ⟨rfl, by decide⟩

/-- C8 (amended): if the set of supported destination tokens for the
requested pair is empty, route resolution fails with a plain `Error` whose
message is `"No supported destination tokens found"` before any route
enumeration (`findRoutes` is not invoked); moreover `getTransferQuote`
never invokes any route's `validate` or `quote` on any input. -/
theorem c8_no_dest_tokens_aborts_early :
    ∀ (τ ρ : Type) (resolver : ResolverOps τ ρ),
      (ResolveStep.routeValidate ∉ (getTransferQuoteRun resolver).1 ∧
        ResolveStep.routeQuote ∉ (getTransferQuoteRun resolver).1) ∧
      (resolver.supportedDestinationTokens = Except.ok [] →
        (getTransferQuoteRun resolver).2 =
          Except.error ⟨"Error", "No supported destination tokens found"⟩ ∧
        (getTransferQuoteRun resolver).1 = [ResolveStep.destTokensStep] ∧
        ResolveStep.findRoutesStep ∉ (getTransferQuoteRun resolver).1) := by
  intro τ ρ resolver
  constructor
  · unfold getTransferQuoteRun
    cases h1 : resolver.supportedDestinationTokens with
    | error e => simp
    | ok destTokens =>
      cases destTokens with
      | nil => simp
      | cons t0 ts =>
        cases h2 : resolver.findRoutes t0 with
        | error e => simp [h2]
        | ok foundRoutes =>
          cases foundRoutes with
          | nil => simp [h2]
          | cons r0 rs => simp [h2]
  · intro hempty
    have hrun : getTransferQuoteRun resolver =
        ([ResolveStep.destTokensStep],
          Except.error ⟨"Error", "No supported destination tokens found"⟩) := by
      unfold getTransferQuoteRun
      rw [hempty]
    rw [hrun]
    exact ⟨rfl, rfl, by simp⟩

/-- C8, witness for the amended theorem at a resolver reporting zero
destination tokens. -/
theorem c8_no_dest_tokens_aborts_early_witness :
    (getTransferQuoteRun (⟨Except.ok ([] : List Unit),
        fun _ => Except.ok ([] : List Unit)⟩ : ResolverOps Unit Unit)).2 =
      Except.error ⟨"Error", "No supported destination tokens found"⟩ ∧
    (getTransferQuoteRun (⟨Except.ok ([] : List Unit),
        fun _ => Except.ok ([] : List Unit)⟩ : ResolverOps Unit Unit)).1 =
      [ResolveStep.destTokensStep] ∧
    ResolveStep.findRoutesStep ∉ (getTransferQuoteRun (⟨Except.ok ([] : List Unit),
        fun _ => Except.ok ([] : List Unit)⟩ : ResolverOps Unit Unit)).1 :=
  (c8_no_dest_tokens_aborts_early Unit Unit
      ⟨Except.ok [], fun _ => Except.ok []⟩).2 rfl

/-- C9: a derived `RouteOption`'s fee string is exactly `"Free"` with
numeric fee magnitude `0` when no relay fee is present; when a relay fee is
present, the fee string is the fee's integer amount divided by
`10 ^ decimals`, rendered to six decimal places, followed by the token
symbol (falling back to `"tokens"` when the symbol is absent). -/
theorem c9_fee_free_or_formatted :
    ∀ (route : RawRoute) (quote : Option RawQuote),
      (quote.bind (fun q => q.relayFee) = none →
        (formatRouteOption route quote).fee = "Free" ∧
        (formatRouteOption route quote).feeAmount = 0) ∧
      (∀ rf : RelayFee, quote.bind (fun q => q.relayFee) = some rf →
        (formatRouteOption route quote).fee =
          toFixed6 ((rf.amount.amount : ℚ) / 10 ^ rf.amount.decimals) ++ " " ++
            jsOrDefault rf.token.symbol "tokens" ∧
        (formatRouteOption route quote).feeAmount =
          (rf.amount.amount : ℚ) / 10 ^ rf.amount.decimals ∧
        (∀ s : String, rf.token.symbol = some s → s ≠ "" →
          (formatRouteOption route quote).fee =
            toFixed6 ((rf.amount.amount : ℚ) / 10 ^ rf.amount.decimals) ++ " " ++ s)) := by
  intro route quote
  constructor
  · intro hnone
    simp [formatRouteOption, hnone]
  · intro rf hsome
    refine ⟨?_, ?_, ?_⟩
    · simp [formatRouteOption, hsome, relayFeeAmount]
    · simp [formatRouteOption, hsome, relayFeeAmount]
    · intro s hs hne
      simp [formatRouteOption, hsome, relayFeeAmount, jsOrDefault, hs, hne]

/-- C9, witness: no relay fee formats to `"Free"` with magnitude 0; a
500000-unit 6-decimal USDC fee formats to the decimal amount plus symbol. -/
theorem c9_fee_free_or_formatted_witness :
    ((formatRouteOption ⟨"CCTPRoute"⟩ none).fee = "Free" ∧
      (formatRouteOption ⟨"CCTPRoute"⟩ none).feeAmount = 0) ∧
    (formatRouteOption ⟨"AutomaticCCTPRoute"⟩
        (some ⟨some ⟨⟨500000, 6⟩, ⟨some "USDC"⟩⟩, some 900000⟩)).fee =
      toFixed6 ((500000 : ℚ) / 10 ^ 6) ++ " " ++ "USDC" :=
  ⟨(c9_fee_free_or_formatted ⟨"CCTPRoute"⟩ none).1 rfl,
    ((c9_fee_free_or_formatted ⟨"AutomaticCCTPRoute"⟩
        (some ⟨some ⟨⟨500000, 6⟩, ⟨some "USDC"⟩⟩, some 900000⟩)).2
      ⟨⟨500000, 6⟩, ⟨some "USDC"⟩⟩ rfl).2.2 "USDC" rfl (by decide)⟩

/-- C10: `formatRoutes` yields exactly one `RouteOption` per input route,
index-aligned with the routes list; a route whose quote is missing or
carries neither a relay fee nor an ETA is still presented, with fee
`"Free"`, fee magnitude `0`, and estimated time `"~0 sec"`. -/
theorem c10_formatRoutes_one_per_route :
    ∀ (allRoutes : List RawRoute) (quotes : List (Option RawQuote)),
      (formatRoutes allRoutes quotes).length = allRoutes.length ∧
      (∀ i : Nat, (formatRoutes allRoutes quotes).get? i =
        (allRoutes.get? i).map (fun r => formatRouteOption r (jsIndex quotes i))) ∧
      (∀ (route : RawRoute) (quote : Option RawQuote),
        quote.bind (fun q => q.relayFee) = none →
        quote.bind (fun q => q.eta) = none →
          (formatRouteOption route quote).fee = "Free" ∧
          (formatRouteOption route quote).feeAmount = 0 ∧
          (formatRouteOption route quote).estimatedTime = "~0 sec") := by
  intro allRoutes quotes
  refine ⟨formatRoutesFrom_length quotes 0 allRoutes, ?_, ?_⟩
  · intro i
    have h := formatRoutesFrom_get? quotes 0 i allRoutes
    rw [Nat.zero_add] at h
    exact h
  · intro route quote hfee heta
    refine ⟨?_, ?_, ?_⟩
    · simp [formatRouteOption, hfee]
    · simp [formatRouteOption, hfee]
    · simp [formatRouteOption, heta]
      decide

/-- C10, witness: one route with an empty quotes array still yields one
option, with `"Free"` fee, zero magnitude and `"~0 sec"` ETA. -/
theorem c10_formatRoutes_one_per_route_witness :
    (formatRoutes [⟨"TokenBridgeRoute"⟩] []).length = 1 ∧
    ((formatRouteOption ⟨"TokenBridgeRoute"⟩ none).fee = "Free" ∧
      (formatRouteOption ⟨"TokenBridgeRoute"⟩ none).feeAmount = 0 ∧
      (formatRouteOption ⟨"TokenBridgeRoute"⟩ none).estimatedTime = "~0 sec") :=
  ⟨(c10_formatRoutes_one_per_route [⟨"TokenBridgeRoute"⟩] []).1,
    (c10_formatRoutes_one_per_route [⟨"TokenBridgeRoute"⟩] []).2.2
      ⟨"TokenBridgeRoute"⟩ none rfl rfl⟩
